import Mathlib

/-!
Shallow embedding of the provider dispatch and normalization layer of
src/backend/ai_model_manager.py: the provider enumeration, the registry of
APIConfig records built by load_api_configs, the per-capability dispatch
cascades of the generate_* entry points, the polling loops of the Runway and
Midjourney adapters, the request-body builders of the Runway, Pika and Suno
adapters, the cost estimator and the batch executor.  Vendor costs are
modelled as exact rationals; Python runtime errors that the claims touch
(TypeError from min with None, NameError from an unbound name) are modelled
explicitly as error values.
-/

set_option linter.unusedVariables false

/-- The AIProvider enumeration, one constructor per member of the Python
Enum class, in source order. -/
inductive AIProvider where
  | RUNWAY_GEN3
  | PIKA_LABS
  | STABILITY_VIDEO
  | MOONVALLEY
  | HAIPER
  | LUMA_DREAM
  | KLING
  | COGVIDEO
  | MIDJOURNEY
  | DALL_E_3
  | STABLE_DIFFUSION_XL
  | FLUX_PRO
  | LEONARDO_AI
  | IDEOGRAM
  | SUNO_AI
  | UDIO
  | MUSICGEN
  | AUDIOCRAFT
  | ELEVENLABS
  | RIFFUSION
  | CLAUDE_3_OPUS
  | GPT_4_TURBO
  | GEMINI_ULTRA
  | LLAMA_3_405B
  | WONDER_DYNAMICS
  | DEEPMOTION
  | CASCADEUR
  | MOVE_AI
  | D_ID
  | HEYGEN
  | SYNTHESIA
  | PLAY_HT
  | MURF_AI
  | RESEMBLE_AI
  | DESCRIPT_OVERDUB
  | TOPAZ_VIDEO_AI
  | REAL_ESRGAN
  | FLOWFRAMES
  | DEOLDIFY
deriving DecidableEq, Fintype, Repr

open AIProvider

/-- The five capability entry points of AIModelManager: generate_video,
generate_image, generate_music, generate_voice, generate_script. -/
inductive Capability where
  | video
  | image
  | music
  | voice
  | script
deriving DecidableEq, Fintype, Repr

/-- The APIConfig dataclass.  cost_per_request is a Python float holding an
exact decimal literal in every registry entry; it is modelled as the exact
rational value of that literal.  api_key is read from an environment
variable with default empty string; the embedding takes the default. -/
structure APIConfig where
  provider : AIProvider
  api_key : String
  endpoint : String
  version : String
  rate_limit : Nat
  cost_per_request : ℚ
  capabilities : List String
  max_resolution : Option String := none
  max_duration : Option Int := none
  supported_formats : Option (List String) := none
deriving DecidableEq, Repr

/-- Registry entry for AIProvider.RUNWAY_GEN3 from load_api_configs. -/
def runwayGen3Config : APIConfig where
  provider := .RUNWAY_GEN3
  api_key := ""
  endpoint := "https://api.runwayml.com/v1/"
  version := "gen3_alpha"
  rate_limit := 10
  cost_per_request := 0.05
  capabilities := ["text2video", "image2video", "video2video"]
  max_resolution := some "1280x768"
  max_duration := some 10
  supported_formats := some ["mp4", "mov"]

/-- Registry entry for AIProvider.PIKA_LABS from load_api_configs. -/
def pikaLabsConfig : APIConfig where
  provider := .PIKA_LABS
  api_key := ""
  endpoint := "https://api.pika.art/v1/"
  version := "1.0"
  rate_limit := 20
  cost_per_request := 0.04
  capabilities := ["text2video", "image2video", "video_editing"]
  max_resolution := some "1024x576"
  max_duration := some 3
  supported_formats := some ["mp4", "gif"]

/-- Registry entry for AIProvider.LUMA_DREAM from load_api_configs. -/
def lumaDreamConfig : APIConfig where
  provider := .LUMA_DREAM
  api_key := ""
  endpoint := "https://api.lumalabs.ai/dream-machine/v1/"
  version := "1.5"
  rate_limit := 15
  cost_per_request := 0.03
  capabilities := ["text2video", "image2video", "keyframe_animation"]
  max_resolution := some "1920x1080"
  max_duration := some 5
  supported_formats := some ["mp4", "webm"]

/-- Registry entry for AIProvider.KLING from load_api_configs. -/
def klingConfig : APIConfig where
  provider := .KLING
  api_key := ""
  endpoint := "https://api.kuaishou.com/kling/v1/"
  version := "1.0"
  rate_limit := 10
  cost_per_request := 0.02
  capabilities := ["text2video", "image2video"]
  max_resolution := some "1280x720"
  max_duration := some 5
  supported_formats := some ["mp4"]

/-- Registry entry for AIProvider.MIDJOURNEY from load_api_configs. -/
def midjourneyConfig : APIConfig where
  provider := .MIDJOURNEY
  api_key := ""
  endpoint := "https://api.midjourney.com/v1/"
  version := "6.0"
  rate_limit := 10
  cost_per_request := 0.02
  capabilities := ["text2image", "image_variation", "upscale", "style_transfer"]
  max_resolution := some "2048x2048"
  supported_formats := some ["png", "jpg", "webp"]

/-- Registry entry for AIProvider.DALL_E_3 from load_api_configs. -/
def dalle3Config : APIConfig where
  provider := .DALL_E_3
  api_key := ""
  endpoint := "https://api.openai.com/v1/images/"
  version := "dall-e-3"
  rate_limit := 5
  cost_per_request := 0.04
  capabilities := ["text2image", "image_edit", "image_variation"]
  max_resolution := some "1792x1024"
  supported_formats := some ["png", "jpg"]

/-- Registry entry for AIProvider.FLUX_PRO from load_api_configs. -/
def fluxProConfig : APIConfig where
  provider := .FLUX_PRO
  api_key := ""
  endpoint := "https://api.blackforestlabs.ai/v1/"
  version := "flux.1_pro"
  rate_limit := 20
  cost_per_request := 0.01
  capabilities := ["text2image", "controlnet", "inpainting"]
  max_resolution := some "2048x2048"
  supported_formats := some ["png", "jpg"]

/-- Registry entry for AIProvider.LEONARDO_AI from load_api_configs. -/
def leonardoConfig : APIConfig where
  provider := .LEONARDO_AI
  api_key := ""
  endpoint := "https://cloud.leonardo.ai/api/rest/v1/"
  version := "1.0"
  rate_limit := 30
  cost_per_request := 0.005
  capabilities := ["text2image", "consistent_character", "game_assets"]
  max_resolution := some "1024x1024"
  supported_formats := some ["png", "jpg"]

/-- Registry entry for AIProvider.SUNO_AI from load_api_configs. -/
def sunoConfig : APIConfig where
  provider := .SUNO_AI
  api_key := ""
  endpoint := "https://api.suno.ai/v1/"
  version := "3.5"
  rate_limit := 10
  cost_per_request := 0.08
  capabilities := ["text2music", "lyrics_generation", "style_remix"]
  max_duration := some 240
  supported_formats := some ["mp3", "wav", "flac"]

/-- Registry entry for the UDIO member from load_api_configs. -/
def udioConfig : APIConfig where
  provider := UDIO
  api_key := ""
  endpoint := "https://api.udio.com/v1/"
  version := "1.0"
  rate_limit := 10
  cost_per_request := 0.06
  capabilities := ["text2music", "music_extension", "stem_separation"]
  max_duration := some 300
  supported_formats := some ["mp3", "wav"]

/-- Registry entry for AIProvider.ELEVENLABS from load_api_configs. -/
def elevenlabsConfig : APIConfig where
  provider := .ELEVENLABS
  api_key := ""
  endpoint := "https://api.elevenlabs.io/v1/"
  version := "2.0"
  rate_limit := 20
  cost_per_request := 0.01
  capabilities := ["text2speech", "voice_cloning", "speech2speech"]
  supported_formats := some ["mp3", "wav", "flac"]

/-- Registry entry for AIProvider.CLAUDE_3_OPUS from load_api_configs. -/
def claude3OpusConfig : APIConfig where
  provider := .CLAUDE_3_OPUS
  api_key := ""
  endpoint := "https://api.anthropic.com/v1/"
  version := "claude-3-opus-20240229"
  rate_limit := 10
  cost_per_request := 0.015
  capabilities := ["script_writing", "dialogue", "story_generation", "editing"]

/-- Registry entry for AIProvider.GPT_4_TURBO from load_api_configs. -/
def gpt4TurboConfig : APIConfig where
  provider := .GPT_4_TURBO
  api_key := ""
  endpoint := "https://api.openai.com/v1/"
  version := "gpt-4-turbo-preview"
  rate_limit := 10
  cost_per_request := 0.01
  capabilities := ["script_writing", "code_generation", "analysis"]

/-- Registry entry for AIProvider.WONDER_DYNAMICS from load_api_configs. -/
def wonderDynamicsConfig : APIConfig where
  provider := .WONDER_DYNAMICS
  api_key := ""
  endpoint := "https://api.wonderdynamics.com/v1/"
  version := "1.0"
  rate_limit := 5
  cost_per_request := 0.1
  capabilities := ["mocap", "body_tracking", "face_tracking", "cg_integration"]
  supported_formats := some ["fbx", "bvh", "usd"]

/-- Registry entry for AIProvider.HEYGEN from load_api_configs. -/
def heygenConfig : APIConfig where
  provider := .HEYGEN
  api_key := ""
  endpoint := "https://api.heygen.com/v1/"
  version := "2.0"
  rate_limit := 10
  cost_per_request := 0.05
  capabilities := ["avatar_video", "voice_sync", "translation"]
  max_resolution := some "1920x1080"
  supported_formats := some ["mp4", "webm"]

/-- Registry entry for AIProvider.TOPAZ_VIDEO_AI from load_api_configs. -/
def topazConfig : APIConfig where
  provider := .TOPAZ_VIDEO_AI
  api_key := ""
  endpoint := "https://api.topazlabs.com/v1/"
  version := "3.0"
  rate_limit := 5
  cost_per_request := 0.1
  capabilities := ["upscaling", "denoising", "stabilization", "frame_interpolation"]
  max_resolution := some "8192x8192"
  supported_formats := some ["mp4", "mov", "avi"]

/-- The registry mapping self.configs built by load_api_configs: exactly the
sixteen providers assigned there receive a config; every other member of the
AIProvider enumeration is absent (dict lookup via .get returns None). -/
def configs : AIProvider → Option APIConfig
  | .RUNWAY_GEN3 => some runwayGen3Config
  | .PIKA_LABS => some pikaLabsConfig
  | .LUMA_DREAM => some lumaDreamConfig
  | .KLING => some klingConfig
  | .MIDJOURNEY => some midjourneyConfig
  | .DALL_E_3 => some dalle3Config
  | .FLUX_PRO => some fluxProConfig
  | .LEONARDO_AI => some leonardoConfig
  | .SUNO_AI => some sunoConfig
  | UDIO => some udioConfig
  | .ELEVENLABS => some elevenlabsConfig
  | .CLAUDE_3_OPUS => some claude3OpusConfig
  | .GPT_4_TURBO => some gpt4TurboConfig
  | .WONDER_DYNAMICS => some wonderDynamicsConfig
  | .HEYGEN => some heygenConfig
  | .TOPAZ_VIDEO_AI => some topazConfig
  | _ => none

/-- Names for the per-provider adapter methods that the dispatch cascades of
the generate_* entry points route to. -/
inductive AdapterId where
  | runway_gen3_video
  | pika_video
  | luma_video
  | kling_video
  | stability_video
  | midjourney_image
  | dalle3_image
  | flux_image
  | leonardo_image
  | suno_music
  | udio_music
  | musicgen_music
  | elevenlabs_voice
  | playht_voice
  | claude_script
  | gpt4_script
deriving DecidableEq, Fintype, Repr

/-- Outcome of a generate_* entry point before any HTTP traffic: either the
ValueError raised when the provider is absent from self.configs, the
NotImplementedError raised by the final else branch of the cascade, or the
invocation of a specific adapter method. -/
inductive DispatchOutcome where
  | unknownProvider
  | notImplementedProvider
  | invoke (a : AdapterId)
deriving DecidableEq, Repr

/-- The generate_video entry point up to adapter invocation: registry lookup
first (ValueError when absent), then the if/elif cascade over providers. -/
def generate_video_dispatch (provider : AIProvider) : DispatchOutcome :=
  match configs provider with
  | none => .unknownProvider
  | some _ =>
    if provider = .RUNWAY_GEN3 then .invoke .runway_gen3_video
    else if provider = .PIKA_LABS then .invoke .pika_video
    else if provider = .LUMA_DREAM then .invoke .luma_video
    else if provider = .KLING then .invoke .kling_video
    else if provider = .STABILITY_VIDEO then .invoke .stability_video
    else .notImplementedProvider

/-- The generate_image entry point up to adapter invocation. -/
def generate_image_dispatch (provider : AIProvider) : DispatchOutcome :=
  match configs provider with
  | none => .unknownProvider
  | some _ =>
    if provider = .MIDJOURNEY then .invoke .midjourney_image
    else if provider = .DALL_E_3 then .invoke .dalle3_image
    else if provider = .FLUX_PRO then .invoke .flux_image
    else if provider = .LEONARDO_AI then .invoke .leonardo_image
    else .notImplementedProvider

/-- The generate_music entry point up to adapter invocation. -/
def generate_music_dispatch (provider : AIProvider) : DispatchOutcome :=
  match configs provider with
  | none => .unknownProvider
  | some _ =>
    if provider = .SUNO_AI then .invoke .suno_music
    else if provider = UDIO then .invoke .udio_music
    else if provider = .MUSICGEN then .invoke .musicgen_music
    else .notImplementedProvider

/-- The generate_voice entry point up to adapter invocation. -/
def generate_voice_dispatch (provider : AIProvider) : DispatchOutcome :=
  match configs provider with
  | none => .unknownProvider
  | some _ =>
    if provider = .ELEVENLABS then .invoke .elevenlabs_voice
    else if provider = .PLAY_HT then .invoke .playht_voice
    else .notImplementedProvider

/-- The generate_script entry point up to adapter invocation. -/
def generate_script_dispatch (provider : AIProvider) : DispatchOutcome :=
  match configs provider with
  | none => .unknownProvider
  | some _ =>
    if provider = .CLAUDE_3_OPUS then .invoke .claude_script
    else if provider = .GPT_4_TURBO then .invoke .gpt4_script
    else .notImplementedProvider

/-- Dispatch of each capability entry point, keyed by capability. -/
def dispatch : Capability → AIProvider → DispatchOutcome
  | .video => generate_video_dispatch
  | .image => generate_image_dispatch
  | .music => generate_music_dispatch
  | .voice => generate_voice_dispatch
  | .script => generate_script_dispatch

/-- The providers for which a branch exists in the cascade of the given
capability entry point (the conditions of the if/elif chain, in order). -/
def adapterBranches : Capability → List AIProvider
  | .video => [.RUNWAY_GEN3, .PIKA_LABS, .LUMA_DREAM, .KLING, .STABILITY_VIDEO]
  | .image => [.MIDJOURNEY, .DALL_E_3, .FLUX_PRO, .LEONARDO_AI]
  | .music => [.SUNO_AI, UDIO, .MUSICGEN]
  | .voice => [.ELEVENLABS, .PLAY_HT]
  | .script => [.CLAUDE_3_OPUS, .GPT_4_TURBO]

/-- One JSON object returned by a vendor status endpoint during polling:
the status string together with the payload fields the two polling adapters
read from it.  The error field models status_data.get with key error, so it
is None when the vendor omitted it. -/
structure StatusData where
  status : String
  output_url : String := ""
  error : Option String := none
  image_urls : List String := []
deriving DecidableEq, Repr

/-- The normalized result dictionary an adapter returns on success.  Fields
absent from a given adapter result dictionary stay None. -/
structure GenResult where
  url : Option String := none
  urls : Option (List String) := none
  provider : String
  cost : ℚ
deriving DecidableEq, Repr

/-- The polling loop of _runway_gen3_video, run against the sequence of
status payloads the vendor returns on successive GET checks.  Each list
element is consumed by exactly one status check.  On status completed the
loop returns the result dictionary; on status failed it raises carrying the
vendor error payload; on any other status it sleeps and polls again.  The
value is None when the loop is still polling after consuming the whole
sequence, and otherwise gives the number of status checks performed together
with the outcome. -/
def runwayPoll (config : APIConfig) :
    List StatusData → Option (Nat × Except (Option String) GenResult)
  | [] => none
  | s :: rest =>
    if s.status = "completed" then
      some (1, .ok { url := some s.output_url, provider := "Runway Gen-3",
                     cost := config.cost_per_request })
    else if s.status = "failed" then
      some (1, .error s.error)
    else
      (runwayPoll config rest).map (fun p => (p.1 + 1, p.2))

/-- The polling loop of _midjourney_image, same reading as runwayPoll.  The
source loop checks only for status completed; there is no failed branch, so
every other status value (failed included) sleeps and polls again. -/
def midjourneyPoll (config : APIConfig) :
    List StatusData → Option (Nat × Except (Option String) GenResult)
  | [] => none
  | s :: rest =>
    if s.status = "completed" then
      some (1, .ok { urls := some s.image_urls, provider := "Midjourney",
                     cost := config.cost_per_request })
    else
      (midjourneyPoll config rest).map (fun p => (p.1 + 1, p.2))

/-- Spec-side closed form of a polling loop: scan to the first status
satisfying the terminal predicate; if none exists the loop never returns;
otherwise the count of checks is the position of that status plus one and
the outcome is given by the terminal status payload. -/
def pollClosedForm (terminal : StatusData → Bool)
    (outcome : StatusData → Except (Option String) GenResult)
    (statuses : List StatusData) : Option (Nat × Except (Option String) GenResult) :=
  match statuses.dropWhile (fun s => !terminal s) with
  | [] => none
  | s :: _ => some ((statuses.takeWhile (fun s => !terminal s)).length + 1, outcome s)

/-- Python runtime errors that the modelled adapter bodies can raise while
building a request body. -/
inductive PyErr where
  | typeError
  | nameError
deriving DecidableEq, Repr

/-- Python min applied to an int and an Optional int: min with None raises
TypeError, since NoneType and int do not compare. -/
def pyMinIntOpt (a : Int) : Option Int → Except PyErr Int
  | some b => .ok (min a b)
  | none => .error .typeError

/-- The Python expression genre or fallback: the fallback is taken when
genre is None and also when it is the empty string, which is falsy. -/
def pyOrStr (a : Option String) (b : String) : String :=
  match a with
  | none => b
  | some s => if s = "" then b else s

/-- The character table of standard base64. -/
def b64Chars : List Char :=
  "ABCDEFGHIJKLMNOPQRSTUVWXYZabcdefghijklmnopqrstuvwxyz0123456789+/".toList

/-- One base64 output character for a 6-bit value. -/
def b64Char (n : Nat) : Char := b64Chars.getD (n % 64) (Char.ofNat 65)

/-- base64.b64encode over a byte list (bytes as naturals below 256),
followed by utf-8 decoding, as used for the init_image field. -/
def b64encode : List Nat → String
  | [] => ""
  | [a] =>
    String.mk [b64Char (a / 4), b64Char (a % 4 * 16)] ++ "=="
  | [a, b] =>
    String.mk [b64Char (a / 4), b64Char (a % 4 * 16 + b / 16),
               b64Char (b % 16 * 4)] ++ "="
  | a :: b :: c :: rest =>
    String.mk [b64Char (a / 4), b64Char (a % 4 * 16 + b / 16),
               b64Char (b % 16 * 4 + c / 64), b64Char (c % 64)] ++ b64encode rest

/-- The JSON body _runway_gen3_video posts to the generations endpoint. -/
structure RunwayBody where
  text_prompt : String
  duration : Int
  resolution : String
  model : String
  init_image : Option String := none
deriving DecidableEq, Repr

/-- Body construction of _runway_gen3_video: the data dict literal with the
duration entry min(duration, config.max_duration), then the init_image
entry added when the image argument is truthy (a non-None, non-empty byte
string). -/
def runwayBuildBody (prompt : String) (image : Option (List Nat)) (duration : Int)
    (resolution : String) (config : APIConfig) : Except PyErr RunwayBody := do
  let d ← pyMinIntOpt duration config.max_duration
  let base : RunwayBody :=
    { text_prompt := prompt, duration := d, resolution := resolution,
      model := config.version }
  match image with
  | some bs => if bs = [] then pure base else pure { base with init_image := some (b64encode bs) }
  | none => pure base

/-- The JSON body _pika_video would post to the generate endpoint. -/
structure PikaBody where
  prompt : String
  seconds : Int
  resolution : String
  motion : Int
  image : Option String := none
deriving DecidableEq, Repr

/-- Body construction of _pika_video.  The dict literal evaluates its values
in order: prompt, then seconds as min(duration, config.max_duration), then
resolution, then the motion entry, whose expression reads the name kwargs.
The signature of _pika_video has no kwargs parameter and the module defines
no such global, so evaluating the motion entry raises NameError before any
HTTP call; the body is never completed. -/
def pikaBuildBody (prompt : String) (image : Option (List Nat)) (duration : Int)
    (resolution : String) (config : APIConfig) : Except PyErr PikaBody := do
  let _secs ← pyMinIntOpt duration config.max_duration
  .error .nameError

/-- The JSON body _suno_music posts to the generate endpoint. -/
structure SunoBody where
  prompt : String
  duration : Int
  tags : String
  instrumental : Bool
  make_public : Bool
  lyrics : Option String := none
deriving DecidableEq, Repr

/-- Body construction of _suno_music: the data dict literal with the
duration entry min(duration, config.max_duration) and the tags entry
genre or pop, then the lyrics entry added when kwargs carries a truthy
lyrics value. -/
def sunoBuildBody (prompt : String) (duration : Int) (genre : Option String)
    (instrumental : Bool) (lyrics : Option String) (config : APIConfig) :
    Except PyErr SunoBody := do
  let d ← pyMinIntOpt duration config.max_duration
  let base : SunoBody :=
    { prompt := prompt, duration := d, tags := pyOrStr genre "pop",
      instrumental := instrumental, make_public := false }
  match lyrics with
  | some l => if l = "" then pure base else pure { base with lyrics := some l }
  | none => pure base

/-- One step of the workflow list passed to estimate_cost: the provider
entry (step.get with key provider, None when absent) and the count entry
(None when absent; step.get with default 1 is applied at use). -/
structure WorkflowStep where
  provider : Option AIProvider
  count : Option Nat
deriving DecidableEq, Repr

/-- estimate_cost: fold over the workflow adding cost_per_request times
step.get count default 1 whenever the provider entry is a key of
self.configs, and skipping the step otherwise. -/
def estimate_cost (workflow : List WorkflowStep) : ℚ :=
  workflow.foldl
    (fun total step =>
      match step.provider with
      | some p =>
        match configs p with
        | some config => total + config.cost_per_request * ((step.count.getD 1 : ℕ) : ℚ)
        | none => total
      | none => total)
    0

/-- The contribution of a single workflow step to estimate_cost. -/
def stepCost (step : WorkflowStep) : ℚ :=
  match step.provider with
  | some p =>
    match configs p with
    | some config => config.cost_per_request * ((step.count.getD 1 : ℕ) : ℚ)
    | none => 0
  | none => 0

/-- The sequential branch of batch_process, abstracted over the per-task
processing function f (the await of _process_task, returning a result or
raising).  The for loop awaits each task in input order appending its result;
a raise propagates at once, so no later task is awaited and no partial
result list survives.  The first component records, in order, the tasks on
which f was invoked; the second is the overall outcome. -/
def batchSequentialRun {τ ε ρ : Type} (f : τ → Except ε ρ) :
    List τ → List τ × Except ε (List ρ)
  | [] => ([], .ok [])
  | t :: ts =>
    match f t with
    | .error e => ([t], .error e)
    | .ok r =>
      let p := batchSequentialRun f ts
      (t :: p.1, p.2.map (fun rs => r :: rs))

/-- Slot-filling model of asyncio.gather for the parallel branch of
batch_process: the event loop runs the dispatched task coroutines in some
completion order (a list of indices into the task list); each completed
task writes its result into the slot of its own input position, never into
the slot of its completion rank. -/
def gatherFill {τ ρ : Type} (f : τ → ρ) (tasks : List τ) :
    List Nat → List (Option ρ) → List (Option ρ)
  | [], slots => slots
  | i :: order, slots => gatherFill f tasks order (slots.set i ((tasks[i]?).map f))

/-- The parallel branch of batch_process under the gather model: one result
slot per input task, filled by running the tasks in the given completion
order. -/
def batchParallelRun {τ ρ : Type} (f : τ → ρ) (tasks : List τ)
    (order : List Nat) : List (Option ρ) :=
  gatherFill f tasks order (List.replicate tasks.length none)

/-- Terminal predicate of the Runway polling loop as the spec states it:
exactly the statuses completed and failed stop polling. -/
def runwayTerminalStatus (s : StatusData) : Bool :=
  s.status == "completed" || s.status == "failed"

/-- Outcome of the Runway polling loop at its terminal status, as the spec
states it: completed yields the result dictionary, failed yields an error
carrying the vendor error payload. -/
def runwayStatusOutcome (config : APIConfig) (s : StatusData) :
    Except (Option String) GenResult :=
  if s.status = "completed" then
    .ok { url := some s.output_url, provider := "Runway Gen-3",
          cost := config.cost_per_request }
  else .error s.error

/-- Terminal predicate of the Midjourney polling loop: only completed. -/
def midjourneyTerminalStatus (s : StatusData) : Bool :=
  s.status == "completed"

/-- Outcome of the Midjourney polling loop at its terminal status. -/
def midjourneyStatusOutcome (config : APIConfig) (s : StatusData) :
    Except (Option String) GenResult :=
  .ok { urls := some s.image_urls, provider := "Midjourney",
        cost := config.cost_per_request }

lemma runwayPoll_eq_closedForm (config : APIConfig) (statuses : List StatusData) :
    runwayPoll config statuses =
      pollClosedForm runwayTerminalStatus (runwayStatusOutcome config) statuses := by
  induction statuses with
  | nil => rfl
  | cons s rest ih =>
    by_cases hc : s.status = "completed"
    · simp [runwayPoll, pollClosedForm, runwayTerminalStatus, runwayStatusOutcome, hc]
    · by_cases hf : s.status = "failed"
      · simp [runwayPoll, pollClosedForm, runwayTerminalStatus, runwayStatusOutcome, hc, hf]
      · have hterm : (!runwayTerminalStatus s) = true := by
          simp [runwayTerminalStatus, hc, hf]
        rw [runwayPoll, pollClosedForm, if_neg hc, if_neg hf,
          @List.dropWhile_cons_of_pos _ (fun s => !runwayTerminalStatus s) s rest hterm,
          @List.takeWhile_cons_of_pos _ (fun s => !runwayTerminalStatus s) s rest hterm,
          ih, pollClosedForm]
        cases h : List.dropWhile (fun s => !runwayTerminalStatus s) rest with
        | nil => simp [h]
        | cons s2 rest2 => simp [h]

lemma midjourneyPoll_eq_closedForm (config : APIConfig) (statuses : List StatusData) :
    midjourneyPoll config statuses =
      pollClosedForm midjourneyTerminalStatus (midjourneyStatusOutcome config) statuses := by
  induction statuses with
  | nil => rfl
  | cons s rest ih =>
    by_cases hc : s.status = "completed"
    · simp [midjourneyPoll, pollClosedForm, midjourneyTerminalStatus,
        midjourneyStatusOutcome, hc]
    · have hterm : (!midjourneyTerminalStatus s) = true := by
        simp [midjourneyTerminalStatus, hc]
      rw [midjourneyPoll, pollClosedForm, if_neg hc,
        @List.dropWhile_cons_of_pos _ (fun s => !midjourneyTerminalStatus s) s rest hterm,
        @List.takeWhile_cons_of_pos _ (fun s => !midjourneyTerminalStatus s) s rest hterm,
        ih, pollClosedForm]
      cases h : List.dropWhile (fun s => !midjourneyTerminalStatus s) rest with
      | nil => simp [h]
      | cons s2 rest2 => simp [h]

lemma estimate_cost_foldl (workflow : List WorkflowStep) (init : ℚ) :
    workflow.foldl
      (fun total step =>
        match step.provider with
        | some p =>
          match configs p with
          | some config => total + config.cost_per_request * ((step.count.getD 1 : ℕ) : ℚ)
          | none => total
        | none => total) init
      = init + (workflow.map stepCost).sum := by
  induction workflow generalizing init with
  | nil => simp
  | cons s w ih =>
    rw [List.foldl_cons, ih, List.map_cons, List.sum_cons]
    have hg : (match s.provider with
        | some p =>
          match configs p with
          | some config => init + config.cost_per_request * ((s.count.getD 1 : ℕ) : ℚ)
          | none => init
        | none => init) = init + stepCost s := by
      unfold stepCost
      cases hp : s.provider with
      | none => simp
      | some p => cases hcfg : configs p <;> simp [hcfg]
    rw [hg, add_assoc]

lemma estimate_cost_eq_sum (workflow : List WorkflowStep) :
    estimate_cost workflow = (workflow.map stepCost).sum := by
  unfold estimate_cost
  rw [estimate_cost_foldl]
  simp

lemma gatherFill_length {τ ρ : Type} (f : τ → ρ) (tasks : List τ)
    (order : List Nat) (slots : List (Option ρ)) :
    (gatherFill f tasks order slots).length = slots.length := by
  induction order generalizing slots with
  | nil => rfl
  | cons i order ih => simp [gatherFill, ih]

lemma gatherFill_getElem {τ ρ : Type} (f : τ → ρ) (tasks : List τ)
    (order : List Nat) (slots : List (Option ρ)) (j : Nat) (hj : j < slots.length) :
    (gatherFill f tasks order slots)[j]? =
      if j ∈ order then some ((tasks[j]?).map f) else slots[j]? := by
  induction order generalizing slots with
  | nil => simp [gatherFill]
  | cons i order ih =>
    rw [gatherFill]
    have hj2 : j < (slots.set i ((tasks[i]?).map f)).length := by simpa using hj
    rw [ih _ hj2]
    by_cases hji : j = i
    · subst hji
      rw [List.getElem?_set_self hj]
      by_cases hmem : j ∈ order <;> simp [hmem]
    · rw [List.getElem?_set_ne (Ne.symm hji)]
      simp [List.mem_cons, hji]

/-- C1 (corrected).  Polling behaviour of the two asynchronous-job adapters,
as a closed form: each loop stops exactly at the first status satisfying its
terminal predicate, performing one check per consumed status.  The Runway
video adapter has terminal statuses completed (result) and failed (error
carrying the vendor error payload) and re-polls on any other status; the
Midjourney image adapter has the single terminal status completed and
re-polls on every other status, failed included.  Both adapters perform
exactly three status checks on the sequence processing, processing,
completed and return a result dictionary after the third. -/
theorem polling_terminal_states :
    (∀ config statuses,
      runwayPoll config statuses =
        pollClosedForm runwayTerminalStatus (runwayStatusOutcome config) statuses) ∧
    (∀ config statuses,
      midjourneyPoll config statuses =
        pollClosedForm midjourneyTerminalStatus (midjourneyStatusOutcome config) statuses) ∧
    runwayPoll runwayGen3Config
        [{ status := "processing" }, { status := "processing" },
         { status := "completed", output_url := "https://cdn.example/clip.mp4" }]
      = some (3, .ok { url := some "https://cdn.example/clip.mp4",
                       provider := "Runway Gen-3",
                       cost := runwayGen3Config.cost_per_request }) ∧
    midjourneyPoll midjourneyConfig
        [{ status := "processing" }, { status := "processing" },
         { status := "completed", image_urls := ["https://cdn.example/a.png"] }]
      = some (3, .ok { urls := some ["https://cdn.example/a.png"],
                       provider := "Midjourney",
                       cost := midjourneyConfig.cost_per_request }) :=
  ⟨runwayPoll_eq_closedForm, midjourneyPoll_eq_closedForm, by rfl, by rfl⟩

/-- C1 counterexample.  The claim states that for every asynchronous-job
adapter the status failed is terminal and produces an error carrying the
vendor failure reason.  For the Midjourney adapter this is false: on the
status sequence failed, completed the loop performs a second check and
returns a successful GenerationResult instead of stopping with an error at
the first check. -/
theorem midjourney_failed_keeps_polling :
    midjourneyPoll midjourneyConfig
        [{ status := "failed", error := some "content flagged" },
         { status := "completed", image_urls := ["https://cdn.example/a.png"] }]
      = some (2, .ok { urls := some ["https://cdn.example/a.png"],
                       provider := "Midjourney",
                       cost := midjourneyConfig.cost_per_request }) := by rfl

/-- C2 (confirmed).  For every capability entry point and every provider
absent from the registry mapping, dispatch stops at the registry lookup with
the ValueError for an unconfigured provider: no adapter is invoked and no
other error is produced. -/
theorem unknown_provider_dispatch :
    ∀ (cap : Capability) (p : AIProvider), configs p = none →
      dispatch cap p = DispatchOutcome.unknownProvider := by
  intro cap p h
  cases cap <;> cases p <;> first | rfl | exact Option.noConfusion h

/-- Witness for C2 at the video entry point and AIProvider.MOONVALLEY,
which the enumeration contains but load_api_configs never configures. -/
theorem unknown_provider_dispatch_witness :
    configs AIProvider.MOONVALLEY = none ∧
      dispatch Capability.video AIProvider.MOONVALLEY = DispatchOutcome.unknownProvider :=
  ⟨rfl, unknown_provider_dispatch Capability.video AIProvider.MOONVALLEY rfl⟩

/-- C3 (confirmed).  For every capability entry point, a provider that is in
the registry but has no branch in the if/elif cascade of that entry point
reaches the final else branch and fails with NotImplementedError, an error
distinct from the ValueError used for providers absent from the registry. -/
theorem unsupported_provider_dispatch :
    ∀ (cap : Capability) (p : AIProvider),
      (configs p).isSome = true → p ∉ adapterBranches cap →
        dispatch cap p = DispatchOutcome.notImplementedProvider ∧
          DispatchOutcome.notImplementedProvider ≠ DispatchOutcome.unknownProvider := by
  intro cap p h1 h2
  cases cap <;> cases p <;>
    first
      | exact Bool.noConfusion h1
      | exact absurd (by decide) h2
      | exact ⟨rfl, fun hh => DispatchOutcome.noConfusion hh⟩

/-- Witness for C3: AIProvider.MIDJOURNEY is registered but has no branch in
the generate_video cascade, so the video entry point raises
NotImplementedError for it. -/
theorem unsupported_provider_dispatch_witness :
    (configs AIProvider.MIDJOURNEY).isSome = true ∧
      AIProvider.MIDJOURNEY ∉ adapterBranches Capability.video ∧
      dispatch Capability.video AIProvider.MIDJOURNEY
        = DispatchOutcome.notImplementedProvider :=
  ⟨rfl, by decide,
    (unsupported_provider_dispatch Capability.video AIProvider.MIDJOURNEY rfl (by decide)).1⟩

/-- C4 (confirmed).  Sequential batch mode: the for loop awaits tasks
strictly in input order; when every task before t succeeds and t raises,
the loop has invoked exactly the tasks up to and including t, no later task
is ever invoked, and the error propagates with no partial result list. -/
theorem batch_sequential_fail_fast {τ ε ρ : Type} (f : τ → Except ε ρ)
    (pre : List τ) (t : τ) (post : List τ) (e : ε)
    (hpre : ∀ x ∈ pre, ∃ r, f x = Except.ok r) (ht : f t = Except.error e) :
    batchSequentialRun f (pre ++ t :: post) = (pre ++ [t], Except.error e) := by
  induction pre with
  | nil => simp [batchSequentialRun, ht]
  | cons a pre ih =>
    obtain ⟨r, hr⟩ := hpre a (List.mem_cons_self a pre)
    have ih2 := ih (fun x hx => hpre x (List.mem_cons_of_mem a hx))
    simp [batchSequentialRun, hr, ih2, Except.map]

/-- Witness for C4: tasks [ok, fail, ok]; the run invokes only the first two
tasks and propagates the error. -/
theorem batch_sequential_fail_fast_witness :
    batchSequentialRun (fun n : ℕ => if n = 2 then Except.error "boom" else Except.ok n)
        [1, 2, 3] = ([1, 2], Except.error "boom") := by
  have h := batch_sequential_fail_fast
      (fun n : ℕ => if n = 2 then Except.error "boom" else Except.ok n)
      [1] 2 [3] "boom"
      (by intro x hx; simp at hx; subst hx; exact ⟨1, rfl⟩)
      (by rfl)
  simpa using h

/-- C5 (confirmed).  Parallel batch mode under the gather model: whatever
completion order the event loop runs the dispatched tasks in, as long as
every task index completes, the slot list holds at position i the result of
task i, i.e. the output equals the input task list mapped through the task
processor.  Ordering is by input position, never by completion order. -/
theorem batch_parallel_position_stable {τ ρ : Type} (f : τ → ρ) (tasks : List τ)
    (order : List Nat) (hcov : ∀ i, i < tasks.length → i ∈ order) :
    batchParallelRun f tasks order = tasks.map (fun t => some (f t)) := by
  apply List.ext_getElem?
  intro j
  by_cases hj : j < tasks.length
  · have hj2 : j < (List.replicate tasks.length (none : Option ρ)).length := by
      simpa using hj
    rw [batchParallelRun, gatherFill_getElem _ _ _ _ _ hj2, if_pos (hcov j hj)]
    rw [List.getElem?_map, List.getElem?_eq_getElem hj]
    simp
  · have h2 : tasks.length ≤ j := Nat.le_of_not_lt hj
    have h1 : (batchParallelRun f tasks order).length = tasks.length := by
      simp [batchParallelRun, gatherFill_length]
    rw [List.getElem?_eq_none (by rw [h1]; exact h2),
      List.getElem?_eq_none (by simpa using h2)]

/-- Witness for C5: three tasks, completion order 2, 0, 1; the result list
is still ordered by input position. -/
theorem batch_parallel_position_stable_witness :
    batchParallelRun (fun n : ℕ => n * 10) [4, 7, 9] [2, 0, 1]
      = [some 40, some 70, some 90] := by
  have h := batch_parallel_position_stable (fun n : ℕ => n * 10) [4, 7, 9] [2, 0, 1]
      (by decide)
  simpa using h

/-- C6 (confirmed).  estimate_cost is the sum of the per-step contributions
cost_per_request times count over exactly the steps whose provider is in
the registry; a step with an unknown provider contributes nothing, for any
count, so removing it leaves the estimate unchanged; and the concrete
estimate over Runway (cost 0.05) times 3 plus Kling (cost 0.02) times 2 is
exactly 0.19. -/
theorem estimate_cost_sum_and_skip :
    (∀ workflow, estimate_cost workflow = (workflow.map stepCost).sum) ∧
    (∀ (pre post : List WorkflowStep) (p : Option AIProvider) (c : Option ℕ),
      p.bind configs = none →
        estimate_cost (pre ++ { provider := p, count := c } :: post)
          = estimate_cost (pre ++ post)) ∧
    estimate_cost [{ provider := some .RUNWAY_GEN3, count := some 3 },
                   { provider := some .KLING, count := some 2 }] = 0.19 := by
  refine ⟨estimate_cost_eq_sum, ?_, by
    rw [estimate_cost_eq_sum]
    simp [stepCost, configs, runwayGen3Config, klingConfig]
    norm_num⟩
  intro pre post p c hp
  have hstep : stepCost { provider := p, count := c } = 0 := by
    unfold stepCost
    cases p with
    | none => rfl
    | some q =>
      simp only [Option.some_bind] at hp
      simp [hp]
  rw [estimate_cost_eq_sum, estimate_cost_eq_sum]
  simp [hstep]

/-- Witness for C6: an entry for the unregistered AIProvider.STABILITY_VIDEO
with count 100 leaves the estimate unchanged. -/
theorem estimate_cost_sum_and_skip_witness :
    estimate_cost [{ provider := some .STABILITY_VIDEO, count := some 100 },
                   { provider := some .RUNWAY_GEN3, count := some 3 },
                   { provider := some .KLING, count := some 2 }]
      = estimate_cost [{ provider := some .RUNWAY_GEN3, count := some 3 },
                       { provider := some .KLING, count := some 2 }] := by
  have h := estimate_cost_sum_and_skip.2.1 []
      [{ provider := some .RUNWAY_GEN3, count := some 3 },
       { provider := some .KLING, count := some 2 }]
      (some .STABILITY_VIDEO) (some 100) (by rfl)
  simpa using h

/-- C7 (corrected).  Every duration-sending adapter body (Runway, Suno)
carries duration min(requested, configured maximum) whenever the provider
config has a configured maximum; every provider that dispatch routes to a
duration-sending adapter (Runway, Pika, Suno) has a configured maximum
duration, so the absent-maximum case never arises in the program; and with
the registry Runway config (maximum 10) a requested duration of 99 is sent
as 10.  When the maximum is absent the body build raises TypeError instead
of passing the requested value through (see the counterexample). -/
theorem duration_clamp_amended :
    (∀ (prompt : String) (image : Option (List ℕ)) (duration : Int)
        (resolution : String) (config : APIConfig) (m : Int),
      config.max_duration = some m →
        (runwayBuildBody prompt image duration resolution config).map RunwayBody.duration
          = .ok (min duration m)) ∧
    (∀ (prompt : String) (duration : Int) (genre : Option String)
        (instrumental : Bool) (lyrics : Option String) (config : APIConfig) (m : Int),
      config.max_duration = some m →
        (sunoBuildBody prompt duration genre instrumental lyrics config).map SunoBody.duration
          = .ok (min duration m)) ∧
    (∀ (cap : Capability) (p : AIProvider) (a : AdapterId),
      dispatch cap p = DispatchOutcome.invoke a →
        a ∈ ([.runway_gen3_video, .pika_video, .suno_music] : List AdapterId) →
          ((configs p).bind APIConfig.max_duration).isSome = true) ∧
    (runwayBuildBody "a city street at night" none 99 "1280x768" runwayGen3Config).map
        RunwayBody.duration = .ok 10 := by
  refine ⟨?_, ?_, ?_, by rfl⟩
  · intro prompt image duration resolution config m h
    unfold runwayBuildBody pyMinIntOpt
    rw [h]
    cases image with
    | none => rfl
    | some bs =>
      by_cases hbs : bs = [] <;> simp [hbs, Except.map]
  · intro prompt duration genre instrumental lyrics config m h
    unfold sunoBuildBody pyMinIntOpt
    rw [h]
    cases lyrics with
    | none => rfl
    | some l =>
      by_cases hl : l = "" <;> simp [hl, Except.map]
  · intro cap p a h1 h2
    cases cap <;> cases p <;>
      first
        | exact DispatchOutcome.noConfusion h1
        | (injection h1 with h1e; subst h1e; first | rfl | exact absurd h2 (by decide))

/-- Witness for C7: the Runway registry config has maximum 10 and a
requested duration of 7 is sent unchanged since 7 is below the maximum. -/
theorem duration_clamp_amended_witness :
    runwayGen3Config.max_duration = some 10 ∧
      (runwayBuildBody "x" none 7 "1280x768" runwayGen3Config).map RunwayBody.duration
        = Except.ok 7 := by
  constructor
  · rfl
  · have h := duration_clamp_amended.1 "x" none 7 "1280x768" runwayGen3Config 10 rfl
    have hm : (min (7 : ℤ) 10) = 7 := by decide
    rw [hm] at h
    exact h

/-- C7 counterexample.  The claim states that with an absent configured
maximum duration the requested value passes through to the vendor request
unmodified.  On the code, min of an int and None raises TypeError, so the
body build errors out instead of sending the requested duration. -/
theorem duration_clamp_none_raises :
    runwayBuildBody "a city street at night" none 99 "1280x768"
        { runwayGen3Config with max_duration := none }
      = Except.error PyErr.typeError := by rfl

/-- C8 (code_bug).  The Pika body build never completes: the motion entry of
the data dict literal reads the name kwargs, which is neither a parameter of
_pika_video nor a module global, so every invocation raises NameError
before the HTTP call is submitted, contradicting the claim that the
body-building step raises no error of its own. -/
theorem pika_body_build_raises :
    pikaBuildBody "a sunset over the ocean" none 5 "1024x576" pikaLabsConfig
      = Except.error PyErr.nameError := by rfl

/-- C9 (corrected).  Every provider that the registry does configure has a
non-empty endpoint URL and a non-empty capability list. -/
theorem registry_configs_wellformed :
    ∀ (p : AIProvider) (config : APIConfig), configs p = some config →
      config.endpoint ≠ "" ∧ config.capabilities ≠ [] := by
  intro p config h
  cases p <;>
    first
      | exact Option.noConfusion h
      | (injection h with h2; subst h2; exact ⟨by decide, by decide⟩)

/-- Witness for C9 at AIProvider.RUNWAY_GEN3. -/
theorem registry_configs_wellformed_witness :
    configs AIProvider.RUNWAY_GEN3 = some runwayGen3Config ∧
      runwayGen3Config.endpoint ≠ "" ∧ runwayGen3Config.capabilities ≠ [] :=
  ⟨rfl, registry_configs_wellformed AIProvider.RUNWAY_GEN3 runwayGen3Config rfl⟩

/-- C9 counterexample.  The claim quantifies over every identifier of the
fixed provider enumeration, but AIProvider.STABILITY_VIDEO is an enumeration
member (with a branch in generate_video) for which the registry lookup
returns absent: load_api_configs configures only sixteen of the
thirty-nine members. -/
theorem registry_missing_enum_member :
    configs AIProvider.STABILITY_VIDEO = none := rfl

/-- C10 (confirmed).  estimate_cost of the empty workflow is exactly 0; a
step without a count entry contributes exactly as a step with count 1; in
particular a single-step workflow over a registered provider with no count
entry costs exactly that provider cost_per_request. -/
theorem estimate_cost_default_count :
    estimate_cost [] = 0 ∧
    (∀ (pre post : List WorkflowStep) (p : Option AIProvider),
      estimate_cost (pre ++ { provider := p, count := none } :: post)
        = estimate_cost (pre ++ { provider := p, count := some 1 } :: post)) ∧
    (∀ (q : AIProvider) (config : APIConfig), configs q = some config →
      estimate_cost [{ provider := some q, count := none }] = config.cost_per_request) := by
  refine ⟨rfl, ?_, ?_⟩
  · intro pre post p
    have hs : stepCost { provider := p, count := none }
        = stepCost { provider := p, count := some 1 } := by
      unfold stepCost
      cases p with
      | none => rfl
      | some q => cases hq : configs q <;> simp [hq]
    rw [estimate_cost_eq_sum, estimate_cost_eq_sum]
    simp [hs]
  · intro q config h
    rw [estimate_cost_eq_sum]
    simp [stepCost, h]

/-- Witness for C10 at AIProvider.ELEVENLABS: a step with no count entry
contributes one cost_per_request. -/
theorem estimate_cost_default_count_witness :
    estimate_cost [{ provider := some AIProvider.ELEVENLABS, count := none }]
      = elevenlabsConfig.cost_per_request :=
  estimate_cost_default_count.2.2 AIProvider.ELEVENLABS elevenlabsConfig rfl
